import Mathlib

/-!
Shallow embedding of the PDF summarizer service (backend/main.py,
backend/pdf_extractor.py, agent/agent.py).

Python exceptions are modelled as `Except` values; the filesystem of staged
temporary files is a list of paths threaded through the request handler;
the external collaborators (the PDF library `fitz` and the ADK model
runtime) are modelled as oracle parameters describing what they would do at
the staged file respectively at this summarization call.
-/

namespace PdfSummarizer

/-- Exceptions that escape the two `PDFExtractor` static methods, as seen by
their caller in `backend/main.py`: either a Python `ValueError` or any other
`Exception`, each carrying `str(e)`. -/
inductive PyExn
  | valueError (msg : String)
  | otherError (msg : String)
  deriving DecidableEq, Repr

/-- What the PDF library `fitz` finds at the staged path: a readable document
given as the list of per-page extracted texts (`page.get_text()` for each page
in order), or `fitz.open` raising `fitz.FileDataError`, or `fitz.open` raising
some other exception. -/
inductive PDFDoc
  | ok (pages : List String)
  | corrupt (msg : String)
  | openFail (msg : String)
  deriving DecidableEq, Repr

/-- Python `str.lower()` as used by the handler: lowercase every character. -/
def pyLower (s : String) : String :=
  ⟨s.data.map Char.toLower⟩

/-- Python `str.endswith(suffix)`: the characters of `suffix` are a suffix of
the characters of the string. -/
def pyEndswith (s suffix : String) : Bool :=
  suffix.data.isSuffixOf s.data

/-- Python `str.strip()` with no argument: remove leading and trailing
whitespace characters. -/
def pyStrip (s : String) : String :=
  ⟨((s.data.dropWhile Char.isWhitespace).reverse.dropWhile
      Char.isWhitespace).reverse⟩

/-- The marker-prefixed entry appended for a kept page in
`PDFExtractor.extract_text` (pdf_extractor.py line 39): the f-string
`--- Page N ---` followed by a newline and the raw page text, with `n` the
1-based page number. -/
def pageEntry (n : Nat) (t : String) : String :=
  "--- Page " ++ toString n ++ " ---\n" ++ t

/-- The page loop of `PDFExtractor.extract_text` (pdf_extractor.py lines
34-39): iterate pages in order, keep a page exactly when its stripped text is
non-empty (Python truthiness of `text.strip()`, modelled by `pyStrip`), and
prefix kept pages with
their marker. `n` is the 1-based number of the first page of the list. -/
def collectPages : Nat → List String → List String
  | _, [] => []
  | n, t :: rest =>
    if pyStrip t ≠ "" then pageEntry n t :: collectPages (n + 1) rest
    else collectPages (n + 1) rest

/-- `PDFExtractor.extract_text` (pdf_extractor.py lines 29-51).
Handler semantics of the source: `fitz.FileDataError` from `fitz.open` is
turned into a `ValueError` with the `Invalid or corrupted PDF file:` text;
any other exception raised in the `try` body is wrapped into a generic
`Exception` with the `Error extracting text from PDF:` text. In particular
the `raise ValueError("No text content found in PDF")` on line 44 is raised
inside the `try` body, so it is caught by the `except Exception` arm of the
same `try` (it is not a `fitz.FileDataError`) and leaves the function as a
generic wrapped `Exception`, not as a `ValueError`. -/
def extract_text (d : PDFDoc) : Except PyExn String :=
  match d with
  | .corrupt m => .error (.valueError ("Invalid or corrupted PDF file: " ++ m))
  | .openFail m => .error (.otherError ("Error extracting text from PDF: " ++ m))
  | .ok pages =>
    let text_content := collectPages 1 pages
    if text_content.isEmpty then
      .error (.otherError ("Error extracting text from PDF: " ++
        "No text content found in PDF"))
    else
      .ok (String.intercalate "\n\n" text_content)

/-- `PDFExtractor.get_page_count` (pdf_extractor.py lines 53-68): the number
of pages of the document; every exception is wrapped into a generic
`Exception` with the `Error reading PDF:` text. -/
def get_page_count (d : PDFDoc) : Except PyExn Nat :=
  match d with
  | .ok pages => .ok pages.length
  | .corrupt m => .error (.otherError ("Error reading PDF: " ++ m))
  | .openFail m => .error (.otherError ("Error reading PDF: " ++ m))

/-- One `part` of an ADK response event (agent.py lines 142-144): it may or
may not carry text (`part.text` may be `None`). -/
structure ADKPart where
  text : Option String
  deriving DecidableEq, Repr

/-- One event yielded by `runner.run_async` (agent.py lines 134-144).
`content = none` models an event with no (or falsy) `content` attribute or a
`content` without a `parts` attribute, which the loop skips. -/
structure ADKEvent where
  content : Option (List ADKPart)
  deriving DecidableEq, Repr

/-- The text contributed by one event in the accumulation loop of
`get_pdf_summary` (agent.py lines 139-144): the texts of its parts in part
order. A part whose `text` is `None` or `""` is skipped by the source
(`if hasattr(part, 'text') and part.text`); skipping it or appending the
empty string yields the same accumulated string, so it contributes `""`. -/
def eventText (e : ADKEvent) : String :=
  match e.content with
  | none => ""
  | some parts => String.join (parts.map fun p => p.text.getD "")

/-- The accumulated `response_text` after the event loop of `get_pdf_summary`
(agent.py lines 133-144): the concatenation of all text fragments, events in
arrival order and, within an event, parts in part order. -/
def responseText (events : List ADKEvent) : String :=
  String.join (events.map eventText)

/-- The wrapping applied by the outer `except Exception` of `get_pdf_summary`
(agent.py lines 155-161) to the message of any exception raised in its `try`
body. -/
def adkWrap (m : String) : String :=
  "Google ADK failed to generate summary. Error: " ++ m ++
    ". This helps identify ADK configuration or integration issues."

/-- The message of the exception raised when no response text was collected
(agent.py lines 150-153). -/
def adkEmptyMsg : String :=
  "ADK did not generate any response. " ++
    "Check if Ollama is running and the model is available."

/-- The user id created by `get_pdf_summary` for the conversation session
(agent.py line 105): the fixed string `pdf_user`, independent of the fresh
uuid drawn for the call (modelled by `nonce`, the first 8 hex characters of
`uuid.uuid4().hex`). -/
def make_user_id (nonce : String) : String :=
  let _ := nonce
  "pdf_user"

/-- The session id created by `get_pdf_summary` (agent.py line 106):
`pdf_session_` followed by the fresh uuid hex prefix of this call. -/
def make_session_id (nonce : String) : String :=
  "pdf_session_" ++ nonce

/-- `get_pdf_summary` (agent.py lines 71-161). The model runtime is an
oracle: `.error m` means the ADK machinery (session creation, runner
construction or the event stream) raised an exception whose `str` is `m`;
`.ok events` means the run yielded `events`. On success the source returns
`response_text.strip()` when that is non-empty (Python truthiness, line
146-147), otherwise raises the no-response exception inside the `try`;
every exception raised in the `try` body is re-wrapped by `adkWrap`. -/
def get_pdf_summary (runner : Except String (List ADKEvent)) :
    Except String String :=
  match runner with
  | .error m => .error (adkWrap m)
  | .ok events =>
    let response_text := responseText events
    if pyStrip response_text ≠ "" then .ok (pyStrip response_text)
    else .error (adkWrap adkEmptyMsg)

/-- Process configuration relevant to the handler (main.py lines 24-25):
`MAX_FILE_SIZE_MB`, from which `MAX_FILE_SIZE_BYTES` derives. -/
structure Config where
  maxFileSizeMB : Nat
  deriving DecidableEq, Repr

/-- `MAX_FILE_SIZE_BYTES = MAX_FILE_SIZE_MB * 1024 * 1024` (main.py line 25). -/
def maxFileSizeBytes (cfg : Config) : Nat :=
  cfg.maxFileSizeMB * 1024 * 1024

/-- The success body `SummaryResponse` (main.py lines 46-50). -/
structure SummaryResponse where
  summary : String
  page_count : Nat
  file_name : String
  deriving DecidableEq, Repr

/-- The outcome of one request to `POST /upload`: the success body, or an
`HTTPException` with a status code and a detail string. -/
inductive Response
  | success (r : SummaryResponse)
  | httpError (status : Nat) (detail : String)
  deriving DecidableEq, Repr

/-- The inner `except ValueError` / `except Exception` pair around the two
extractor calls (main.py lines 128-131): a `ValueError` becomes a 400 with
`str(e)` as detail, any other exception becomes a 500 with the
`Error processing PDF:` detail. -/
def mapExtractionErr : PyExn → Response
  | .valueError m => .httpError 400 m
  | .otherError m => .httpError 500 ("Error processing PDF: " ++ m)

/-- The body of the outer `try` of the handler after the temporary file has
been staged (main.py lines 124-154): extraction, page count, summarization,
response construction, and the outer `except Exception` catch-all.
`unexpected = some m` models a non-`HTTPException` exception with `str(e) = m`
raised in the outer `try` body outside the two inner `try` blocks (for
example while building the response); it is mapped by the catch-all to a 500
with the `Unexpected error:` detail (lines 150-154), while `HTTPException`s
are re-raised unchanged (lines 148-149). -/
def processStaged (filename : String) (doc : PDFDoc)
    (runner : Except String (List ADKEvent)) (unexpected : Option String) :
    Response :=
  match unexpected with
  | some m => .httpError 500 ("Unexpected error: " ++ m)
  | none =>
    match extract_text doc with
    | .error e => mapExtractionErr e
    | .ok _pdf_text =>
      match get_page_count doc with
      | .error e => mapExtractionErr e
      | .ok page_count =>
        match get_pdf_summary runner with
        | .error m => .httpError 500 ("Error generating summary: " ++ m)
        | .ok summary =>
          .success ⟨summary, page_count, filename⟩

/-- The handler after the extension gate has passed (main.py lines 99-161):
read the content, check the size bounds, stage the bytes to the fresh
temporary path, run `processStaged`, and in the `finally` block unlink the
temporary file if it exists, swallowing any unlink failure
(`unlinkFails = true` models `os.unlink` raising; the exception is ignored,
so the file stays on disk and the response is unchanged). Before staging,
`temp_file` is still `None` and the `finally` block removes nothing. Returns
the response together with the final set of staged files. -/
def afterExtGate (cfg : Config) (filename : String) (content : List Nat)
    (tempPath : String) (doc : PDFDoc)
    (runner : Except String (List ADKEvent)) (unexpected : Option String)
    (unlinkFails : Bool) (fs : List String) : Response × List String :=
  let file_size := content.length
  if file_size > maxFileSizeBytes cfg then
    (.httpError 400 ("File size exceeds maximum allowed size of " ++
      toString cfg.maxFileSizeMB ++ "MB"), fs)
  else if file_size = 0 then
    (.httpError 400 "Uploaded file is empty", fs)
  else
    let fs1 := tempPath :: fs
    let resp := processStaged filename doc runner unexpected
    (resp, if unlinkFails then fs1 else fs1.erase tempPath)

/-- `upload_pdf` (main.py lines 78-161): the extension gate
`file.filename.lower().endswith('.pdf')` (line 93) rejects with a 400 before
any filesystem work; otherwise the request proceeds through `afterExtGate`. -/
def upload_pdf (cfg : Config) (filename : String) (content : List Nat)
    (tempPath : String) (doc : PDFDoc)
    (runner : Except String (List ADKEvent)) (unexpected : Option String)
    (unlinkFails : Bool) (fs : List String) : Response × List String :=
  if pyEndswith (pyLower filename) ".pdf" then
    afterExtGate cfg filename content tempPath doc runner unexpected
      unlinkFails fs
  else
    (.httpError 400 "Only PDF files are allowed", fs)

/-! ## Helper lemmas -/

theorem String.ext_of_data {a b : String} (h : a.data = b.data) : a = b :=
  congrArg String.mk h

theorem collectPages_all_kept (pages : List String) :
    ∀ n, (∀ t ∈ pages, pyStrip t ≠ "") →
      collectPages n pages = (pages.enumFrom n).map fun p => pageEntry p.1 p.2 := by
  induction pages with
  | nil => intro n _; rfl
  | cons t rest ih =>
    intro n h
    have ht : pyStrip t ≠ "" := h t (List.mem_cons_self _ _)
    have hrest : ∀ x ∈ rest, pyStrip x ≠ "" := fun x hx => h x (List.mem_cons_of_mem _ hx)
    simp [collectPages, ht, List.enumFrom, ih (n + 1) hrest]

theorem collectPages_eq_filter (pages : List String) :
    ∀ n, collectPages n pages =
      ((pages.enumFrom n).filter fun p => decide (pyStrip p.2 ≠ "")).map
        fun p => pageEntry p.1 p.2 := by
  induction pages with
  | nil => intro n; rfl
  | cons t rest ih =>
    intro n
    by_cases h0 : pyStrip t = ""
    · simp [collectPages, List.enumFrom, List.filter_cons, h0, ih (n + 1)]
    · simp [collectPages, List.enumFrom, List.filter_cons, h0, ih (n + 1)]

theorem collectPages_ne_nil (pages : List String) :
    ∀ n, (∃ t ∈ pages, pyStrip t ≠ "") → collectPages n pages ≠ [] := by
  induction pages with
  | nil =>
    intro n h
    rcases h with ⟨t, ht, _⟩
    simp at ht
  | cons t rest ih =>
    intro n h
    by_cases h0 : pyStrip t = ""
    · rcases h with ⟨x, hx, hxne⟩
      rcases List.mem_cons.mp hx with rfl | hx2
      · exact absurd h0 hxne
      · simpa [collectPages, h0] using ih (n + 1) ⟨x, hx2, hxne⟩
    · simp [collectPages, h0]

theorem get_pdf_summary_ok_nonempty (runner : Except String (List ADKEvent))
    (s : String) (h : get_pdf_summary runner = .ok s) : s ≠ "" := by
  cases runner with
  | error m => simp [get_pdf_summary] at h
  | ok events =>
    by_cases hne : pyStrip (responseText events) ≠ ""
    · simp [get_pdf_summary, hne] at h
      exact h ▸ hne
    · simp [get_pdf_summary, hne] at h

theorem make_session_id_injective (n1 n2 : String)
    (h : make_session_id n1 = make_session_id n2) : n1 = n2 := by
  have hd := congrArg String.data h
  simp only [make_session_id, String.data_append] at hd
  exact String.ext_of_data (List.append_cancel_left hd)

theorem append_ne_of_short (a b t : String) (hlt : t.length < a.length) :
    a ++ b ≠ t := by
  intro habs
  have hlen := congrArg String.length habs
  rw [String.length_append] at hlen
  omega

/-! ## Claims -/

/-- Claim C2 (code bug evaluation). For a valid PDF whose pages all have
empty or whitespace-only text, `extract_text` raises the generic wrapped
`Exception` (its internal `ValueError` is caught by its own
`except Exception` arm), so the endpoint returns status 500, not the 400 the
spec assigns to `EmptyDocument`; a corrupted PDF, by contrast, does yield a
`ValueError` and a 400 as the claim states. -/
theorem empty_text_pdf_returns_500 :
    extract_text (.ok ["", "   "]) =
      .error (.otherError
        "Error extracting text from PDF: No text content found in PDF") ∧
    (upload_pdf ⟨10⟩ "scan.pdf" [37] "/tmp/stage.pdf" (.ok ["", "   "])
        (.ok []) none false []).1 =
      .httpError 500
        "Error processing PDF: Error extracting text from PDF: No text content found in PDF" ∧
    extract_text (.corrupt "bad xref") =
      .error (.valueError "Invalid or corrupted PDF file: bad xref") ∧
    (upload_pdf ⟨10⟩ "bad.pdf" [37] "/tmp/stage.pdf" (.corrupt "bad xref")
        (.ok []) none false []).1 =
      .httpError 400 "Invalid or corrupted PDF file: bad xref" := by
  refine ⟨rfl, by decide, rfl, by decide⟩

/-- Claim C4. In general the kept entries of `extract_text` are exactly the
pages whose stripped text is non-empty, in page order, each prefixed with the
marker carrying its true 1-based page number (so pages whose text is empty
or whitespace-only are skipped and the remaining markers stay ascending);
when at least one page has text, the output is the blank-line-separated join
of those entries; and for a PDF with non-whitespace text on every page no
page is skipped: the output joins all `page_count` marker-prefixed pages,
markers 1..page_count in ascending page order. -/
theorem extract_text_markers (pages : List String) :
    (collectPages 1 pages =
      ((pages.enumFrom 1).filter fun p => decide (pyStrip p.2 ≠ "")).map
        fun p => pageEntry p.1 p.2) ∧
    ((∃ t ∈ pages, pyStrip t ≠ "") →
      extract_text (.ok pages) =
        .ok (String.intercalate "\n\n"
          (((pages.enumFrom 1).filter fun p => decide (pyStrip p.2 ≠ "")).map
            fun p => pageEntry p.1 p.2))) ∧
    ((∀ t ∈ pages, pyStrip t ≠ "") → pages ≠ [] →
      extract_text (.ok pages) =
        .ok (String.intercalate "\n\n"
          ((pages.enumFrom 1).map fun p => pageEntry p.1 p.2)) ∧
      (collectPages 1 pages).length = pages.length) := by
  have hfilter := collectPages_eq_filter pages 1
  refine ⟨hfilter, fun hex => ?_, fun hall hne => ?_⟩
  · have hnn := collectPages_ne_nil pages 1 hex
    have hbranch : extract_text (.ok pages) =
        .ok (String.intercalate "\n\n" (collectPages 1 pages)) := by
      simp [extract_text, List.isEmpty_iff, hnn]
    rw [hbranch, hfilter]
  · have hc := collectPages_all_kept pages 1 hall
    have hlen : (collectPages 1 pages).length = pages.length := by
      simp [hc]
    refine ⟨?_, hlen⟩
    have hnonnil : collectPages 1 pages ≠ [] := by
      intro habs
      rw [habs] at hlen
      exact hne (List.eq_nil_of_length_eq_zero hlen.symm)
    simp [extract_text, List.isEmpty_iff, hnonnil, hc, hne]

/-- Claim C4 witness: a three-page PDF whose middle page is whitespace-only.
The extracted text keeps markers 1 and 3 only, in order: the blank page is
skipped but the kept pages keep their true page numbers. -/
theorem extract_text_markers_witness :
    extract_text (.ok ["intro", "   ", "end"]) =
      .ok "--- Page 1 ---\nintro\n\n--- Page 3 ---\nend" ∧
    collectPages 1 ["intro", "   ", "end"] =
      ["--- Page 1 ---\nintro", "--- Page 3 ---\nend"] := by
  have h := extract_text_markers ["intro", "   ", "end"]
  exact ⟨(h.2.1 (by decide)).trans (congrArg Except.ok (by decide)),
    h.1.trans (by decide)⟩

/-- Claim C8 counterexample. The summary returned on success is not the raw
concatenation of the event text fragments: the source returns
`response_text.strip()`, so leading and trailing whitespace of the
concatenation is dropped. -/
theorem summary_not_raw_concat :
    responseText [⟨some [⟨some " hi "⟩]⟩] = " hi " ∧
    get_pdf_summary (.ok [⟨some [⟨some " hi "⟩]⟩]) = .ok "hi" ∧
    ("hi" : String) ≠ " hi " := by
  refine ⟨rfl, rfl, by decide⟩

/-- Claim C8 as amended. On success the summary is the whitespace-trimmed
concatenation of all text fragments carried by the response events, events
in arrival order and parts in part order within an event; and every
successful summary equals that trimmed concatenation. -/
theorem summary_is_trimmed_concat (events : List ADKEvent) :
    (pyStrip (responseText events) ≠ "" →
      get_pdf_summary (.ok events) = .ok (pyStrip (responseText events))) ∧
    (∀ s, get_pdf_summary (.ok events) = .ok s →
      s = pyStrip (responseText events)) := by
  constructor
  · intro h
    simp [get_pdf_summary, h]
  · intro s h
    by_cases hne : pyStrip (responseText events) ≠ ""
    · simp [get_pdf_summary, hne] at h
      exact h.symm
    · simp [get_pdf_summary, hne] at h

/-- Claim C8 witness: two events, three parts, one of them without text. -/
theorem summary_is_trimmed_concat_witness :
    pyStrip (responseText [⟨some [⟨some " hi "⟩, ⟨none⟩]⟩, ⟨some [⟨some "there"⟩]⟩]) ≠ "" ∧
    get_pdf_summary (.ok [⟨some [⟨some " hi "⟩, ⟨none⟩]⟩, ⟨some [⟨some "there"⟩]⟩]) =
      .ok "hi there" := by
  have h := (summary_is_trimmed_concat
    [⟨some [⟨some " hi "⟩, ⟨none⟩]⟩, ⟨some [⟨some "there"⟩]⟩]).1 (by decide)
  exact ⟨by decide, h.trans (congrArg Except.ok (by decide))⟩

/-- Claim C9 counterexample. The user id is the hard-coded constant
`pdf_user`: two calls with distinct fresh uuid nonces get the same user id,
so the user id is not generated per call and is reused across requests. -/
theorem user_id_constant :
    make_user_id "00000000" = make_user_id "ffffffff" ∧
    ("00000000" : String) ≠ "ffffffff" ∧
    make_user_id "00000000" = "pdf_user" := by
  refine ⟨rfl, by decide, rfl⟩

/-- Claim C9 as amended. Each call uses the fixed user id `pdf_user` and a
generated session id `pdf_session_` + fresh uuid hex; two calls whose
generated nonces differ get distinct session ids, so the
(user id, session id) pair of one call is never reused by the other. -/
theorem session_pair_fresh (n1 n2 : String) (h : n1 ≠ n2) :
    make_user_id n1 = "pdf_user" ∧
    make_session_id n1 ≠ make_session_id n2 ∧
    (make_user_id n1, make_session_id n1) ≠
      (make_user_id n2, make_session_id n2) := by
  have hs : make_session_id n1 ≠ make_session_id n2 :=
    fun habs => h (make_session_id_injective n1 n2 habs)
  exact ⟨rfl, hs, fun habs => hs (congrArg Prod.snd habs)⟩

/-- Claim C9 witness: two concrete distinct nonces. -/
theorem session_pair_fresh_witness :
    ("00000000" : String) ≠ "11111111" ∧
    make_session_id "00000000" ≠ make_session_id "11111111" := by
  have h := session_pair_fresh "00000000" "11111111" (by decide)
  exact ⟨by decide, h.2.1⟩

/-- Claim C1. Once the upload has passed validation and the temporary file
has been staged at a fresh path, the request removes the staged file on
every exit path (extraction failure, summarization failure, unexpected
exception, or success) when the unlink succeeds; and a failing unlink is
swallowed: the response is identical whether the cleanup succeeds or fails. -/
theorem temp_file_cleanup (cfg : Config) (filename : String)
    (content : List Nat) (tempPath : String) (doc : PDFDoc)
    (runner : Except String (List ADKEvent)) (unexpected : Option String)
    (fs : List String)
    (hext : pyEndswith (pyLower filename) ".pdf" = true)
    (hsize : content.length ≤ maxFileSizeBytes cfg)
    (hpos : content.length ≠ 0)
    (hfresh : tempPath ∉ fs) :
    tempPath ∉ (upload_pdf cfg filename content tempPath doc runner unexpected
      false fs).2 ∧
    (upload_pdf cfg filename content tempPath doc runner unexpected true
      fs).1 =
      (upload_pdf cfg filename content tempPath doc runner unexpected false
        fs).1 := by
  have hgt : ¬ content.length > maxFileSizeBytes cfg := Nat.not_lt.mpr hsize
  constructor
  · simp [upload_pdf, afterExtGate, hext, hgt, hpos, List.erase_cons_head,
      hfresh]
  · simp [upload_pdf, afterExtGate, hext, hgt, hpos]

/-- Claim C1 witness: a staged request that then hits an unexpected
exception; the staged file is gone and the response ignores a failing
unlink. -/
theorem temp_file_cleanup_witness :
    "/tmp/a.pdf" ∉ (upload_pdf ⟨10⟩ "Report.PDF" [1, 2, 3] "/tmp/a.pdf"
      (.openFail "io") (.error "down") (some "boom") false
      ["/tmp/other"]).2 ∧
    (upload_pdf ⟨10⟩ "Report.PDF" [1, 2, 3] "/tmp/a.pdf" (.openFail "io")
      (.error "down") (some "boom") true ["/tmp/other"]).1 =
      (upload_pdf ⟨10⟩ "Report.PDF" [1, 2, 3] "/tmp/a.pdf" (.openFail "io")
        (.error "down") (some "boom") false ["/tmp/other"]).1 :=
  temp_file_cleanup ⟨10⟩ "Report.PDF" [1, 2, 3] "/tmp/a.pdf" (.openFail "io")
    (.error "down") (some "boom") ["/tmp/other"] (by decide) (by decide)
    (by decide) (by decide)

/-- Claim C3. Every validation violation returns 400 with its specific
reason and leaves the staged-file set untouched, for arbitrary document and
model oracles: a filename whose lowercased form does not end in `.pdf`, a
byte length above the configured maximum (reason naming the configured
limit), or byte length zero. -/
theorem validation_gate_400 (cfg : Config) (filename : String)
    (content : List Nat) (tempPath : String) (doc : PDFDoc)
    (runner : Except String (List ADKEvent)) (unexpected : Option String)
    (unlinkFails : Bool) (fs : List String) :
    (pyEndswith (pyLower filename) ".pdf" = false →
      upload_pdf cfg filename content tempPath doc runner unexpected
        unlinkFails fs = (.httpError 400 "Only PDF files are allowed", fs)) ∧
    (pyEndswith (pyLower filename) ".pdf" = true →
      content.length > maxFileSizeBytes cfg →
      upload_pdf cfg filename content tempPath doc runner unexpected
        unlinkFails fs =
        (.httpError 400 ("File size exceeds maximum allowed size of " ++
          toString cfg.maxFileSizeMB ++ "MB"), fs)) ∧
    (pyEndswith (pyLower filename) ".pdf" = true → content.length = 0 →
      upload_pdf cfg filename content tempPath doc runner unexpected
        unlinkFails fs = (.httpError 400 "Uploaded file is empty", fs)) := by
  refine ⟨fun hext => ?_, fun hext hgt => ?_, fun hext hz => ?_⟩
  · simp [upload_pdf, hext]
  · simp [upload_pdf, afterExtGate, hext, hgt]
  · simp [upload_pdf, afterExtGate, hext, hz]

/-- Claim C3 witness: the three rejections at concrete inputs. -/
theorem validation_gate_400_witness :
    upload_pdf ⟨10⟩ "notes.txt" [1] "/tmp/a" (.ok ["x"]) (.ok []) none false
      [] = (.httpError 400 "Only PDF files are allowed", []) ∧
    upload_pdf ⟨0⟩ "a.pdf" [1] "/tmp/a" (.ok ["x"]) (.ok []) none false [] =
      (.httpError 400 "File size exceeds maximum allowed size of 0MB", []) ∧
    upload_pdf ⟨10⟩ "a.pdf" [] "/tmp/a" (.ok ["x"]) (.ok []) none false [] =
      (.httpError 400 "Uploaded file is empty", []) := by
  refine ⟨(validation_gate_400 ⟨10⟩ "notes.txt" [1] "/tmp/a" (.ok ["x"])
      (.ok []) none false []).1 (by decide),
    ((validation_gate_400 ⟨0⟩ "a.pdf" [1] "/tmp/a" (.ok ["x"]) (.ok []) none
      false []).2.1 (by decide) (by decide)).trans (by decide),
    (validation_gate_400 ⟨10⟩ "a.pdf" [] "/tmp/a" (.ok ["x"]) (.ok []) none
      false []).2.2 (by decide) (by decide)⟩

/-- Claim C5. On a successful run the response body is exactly the trimmed
summary, the page count and the original uploaded filename, where the page
count is the true total number of pages of the document, counting also the
pages whose text was empty or whitespace-only and therefore skipped from the
extracted text. -/
theorem success_response_shape (cfg : Config) (filename : String)
    (content : List Nat) (tempPath : String) (pages : List String)
    (events : List ADKEvent) (unlinkFails : Bool) (fs : List String)
    (hext : pyEndswith (pyLower filename) ".pdf" = true)
    (hsize : content.length ≤ maxFileSizeBytes cfg)
    (hpos : content.length ≠ 0)
    (htext : collectPages 1 pages ≠ [])
    (hresp : pyStrip (responseText events) ≠ "") :
    (upload_pdf cfg filename content tempPath (.ok pages) (.ok events) none
      unlinkFails fs).1 =
      .success ⟨pyStrip (responseText events), pages.length, filename⟩ := by
  have hgt : ¬ content.length > maxFileSizeBytes cfg := Nat.not_lt.mpr hsize
  simp [upload_pdf, afterExtGate, processStaged, extract_text, get_page_count,
    get_pdf_summary, hext, hgt, hpos, List.isEmpty_iff, htext, hresp]

/-- Claim C5 witness: a three-page PDF whose middle page is whitespace-only;
the response still reports a page count of 3 and the original filename. -/
theorem success_response_shape_witness :
    (upload_pdf ⟨10⟩ "paper.pdf" [9, 9] "/tmp/p.pdf"
      (.ok ["intro", "   ", "end"]) (.ok [⟨some [⟨some "A fine summary."⟩]⟩])
      none false []).1 =
      .success ⟨"A fine summary.", 3, "paper.pdf"⟩ :=
  (success_response_shape ⟨10⟩ "paper.pdf" [9, 9] "/tmp/p.pdf"
    ["intro", "   ", "end"] [⟨some [⟨some "A fine summary."⟩]⟩] false []
    (by decide) (by decide) (by decide) (by decide) (by decide)).trans
    (by decide)

/-- Claim C6. A model-runtime failure with message `m` is re-raised wrapped
with `m` inside the wrapped text; the endpoint then returns 500 with a
detail string containing `m`, and the staged temp file is still removed. -/
theorem summarization_failure_500 (cfg : Config) (filename : String)
    (content : List Nat) (tempPath : String) (pages : List String)
    (m : String) (fs : List String)
    (hext : pyEndswith (pyLower filename) ".pdf" = true)
    (hsize : content.length ≤ maxFileSizeBytes cfg)
    (hpos : content.length ≠ 0)
    (hfresh : tempPath ∉ fs)
    (htext : collectPages 1 pages ≠ []) :
    get_pdf_summary (.error m) = .error (adkWrap m) ∧
    (∃ a b, adkWrap m = a ++ (m ++ b)) ∧
    (upload_pdf cfg filename content tempPath (.ok pages) (.error m) none
      false fs).1 =
      .httpError 500 ("Error generating summary: " ++ adkWrap m) ∧
    (∃ a b, "Error generating summary: " ++ adkWrap m = a ++ (m ++ b)) ∧
    tempPath ∉ (upload_pdf cfg filename content tempPath (.ok pages)
      (.error m) none false fs).2 := by
  have hgt : ¬ content.length > maxFileSizeBytes cfg := Nat.not_lt.mpr hsize
  refine ⟨rfl,
    ⟨"Google ADK failed to generate summary. Error: ",
      ". This helps identify ADK configuration or integration issues.",
      rfl⟩, ?_,
    ⟨"Error generating summary: " ++
        "Google ADK failed to generate summary. Error: ",
      ". This helps identify ADK configuration or integration issues.",
      by rw [String.append_assoc]; rfl⟩, ?_⟩
  · simp [upload_pdf, afterExtGate, processStaged, extract_text,
      get_page_count, get_pdf_summary, hext, hgt, hpos, List.isEmpty_iff,
      htext]
  · simp [upload_pdf, afterExtGate, hext, hgt, hpos, List.erase_cons_head,
      hfresh]

/-- Claim C6 witness: a concrete runtime failure message appears in the 500
detail and the staged file is removed. -/
theorem summarization_failure_500_witness :
    (upload_pdf ⟨10⟩ "doc.pdf" [1] "/tmp/s.pdf" (.ok ["text"])
      (.error "connection refused") none false []).1 =
      .httpError 500
        ("Error generating summary: " ++ adkWrap "connection refused") ∧
    "/tmp/s.pdf" ∉ (upload_pdf ⟨10⟩ "doc.pdf" [1] "/tmp/s.pdf" (.ok ["text"])
      (.error "connection refused") none false []).2 := by
  have h := summarization_failure_500 ⟨10⟩ "doc.pdf" [1] "/tmp/s.pdf"
    ["text"] "connection refused" [] (by decide) (by decide) (by decide)
    (by decide) (by decide)
  exact ⟨h.2.2.1, h.2.2.2.2⟩

/-- Claim C7. A concatenated model output that strips to the empty string is
a hard failure (the no-response exception, wrapped); the summarization
client never returns an empty summary, and the endpoint never returns a
success response whose summary is the empty string. -/
theorem no_empty_summary :
    (∀ events, pyStrip (responseText events) = "" →
      get_pdf_summary (.ok events) = .error (adkWrap adkEmptyMsg)) ∧
    (∀ runner s, get_pdf_summary runner = .ok s → s ≠ "") ∧
    (∀ cfg filename content tempPath doc runner unexpected unlinkFails fs r,
      (upload_pdf cfg filename content tempPath doc runner unexpected
        unlinkFails fs).1 = .success r → r.summary ≠ "") := by
  refine ⟨fun events h => by simp [get_pdf_summary, h],
    get_pdf_summary_ok_nonempty, ?_⟩
  intro cfg filename content tempPath doc runner unexpected unlinkFails fs r h
  by_cases hext : pyEndswith (pyLower filename) ".pdf"
  case neg => simp [upload_pdf, hext] at h
  by_cases hgt : content.length > maxFileSizeBytes cfg
  case pos => simp [upload_pdf, afterExtGate, hext, hgt] at h
  by_cases hz : content.length = 0
  case pos => simp [upload_pdf, afterExtGate, hext, hgt, hz] at h
  cases unexpected with
  | some m => simp [upload_pdf, afterExtGate, processStaged, hext, hgt, hz] at h
  | none =>
    cases doc with
    | corrupt m =>
      simp [upload_pdf, afterExtGate, processStaged, extract_text,
        mapExtractionErr, hext, hgt, hz] at h
    | openFail m =>
      simp [upload_pdf, afterExtGate, processStaged, extract_text,
        mapExtractionErr, hext, hgt, hz] at h
    | ok pages =>
      by_cases hemp : (collectPages 1 pages).isEmpty
      case pos =>
        simp [upload_pdf, afterExtGate, processStaged, extract_text,
          mapExtractionErr, hext, hgt, hz, hemp] at h
      cases runner with
      | error m =>
        simp [upload_pdf, afterExtGate, processStaged, extract_text,
          get_page_count, get_pdf_summary, hext, hgt, hz, hemp] at h
      | ok events =>
        by_cases hne : pyStrip (responseText events) = ""
        case pos =>
          simp [upload_pdf, afterExtGate, processStaged, extract_text,
            get_page_count, get_pdf_summary, hext, hgt, hz, hemp, hne] at h
        case neg =>
          simp [upload_pdf, afterExtGate, processStaged, extract_text,
            get_page_count, get_pdf_summary, hext, hgt, hz, hemp, hne] at h
          rw [← h]
          exact hne

/-- Claim C7 witness: a whitespace-only model output is rejected, and a
concrete successful summary is non-empty. -/
theorem no_empty_summary_witness :
    get_pdf_summary (.ok [⟨some [⟨some "   "⟩]⟩]) =
      .error (adkWrap adkEmptyMsg) ∧
    ("summary" : String) ≠ "" := by
  exact ⟨no_empty_summary.1 [⟨some [⟨some "   "⟩]⟩] (by decide),
    no_empty_summary.2.1 (.ok [⟨some [⟨some "summary"⟩]⟩]) "summary" rfl⟩

/-- Claim C10. The extension gate is case-insensitive: a request whose
filename lowercases to something not ending in `.pdf` is rejected with the
400 PDF-only reason and no staging happens, while a filename whose
lowercased form ends in `.pdf` is never rejected with that reason, whatever
the document and model oracles do. -/
theorem extension_gate_case_insensitive (cfg : Config) (filename : String)
    (content : List Nat) (tempPath : String) (doc : PDFDoc)
    (runner : Except String (List ADKEvent)) (unexpected : Option String)
    (unlinkFails : Bool) (fs : List String) :
    (pyEndswith (pyLower filename) ".pdf" = false →
      upload_pdf cfg filename content tempPath doc runner unexpected
        unlinkFails fs = (.httpError 400 "Only PDF files are allowed", fs)) ∧
    (pyEndswith (pyLower filename) ".pdf" = true →
      (upload_pdf cfg filename content tempPath doc runner unexpected
        unlinkFails fs).1 ≠ .httpError 400 "Only PDF files are allowed") := by
  refine ⟨fun hext => by simp [upload_pdf, hext], fun hext => ?_⟩
  intro h
  by_cases hgt : content.length > maxFileSizeBytes cfg
  case pos =>
    simp [upload_pdf, afterExtGate, hext, hgt] at h
    exact append_ne_of_short "File size exceeds maximum allowed size of "
      (toString cfg.maxFileSizeMB ++ "MB") "Only PDF files are allowed"
      (by decide) h
  by_cases hz : content.length = 0
  case pos => simp [upload_pdf, afterExtGate, hext, hgt, hz] at h
  cases unexpected with
  | some m => simp [upload_pdf, afterExtGate, processStaged, hext, hgt, hz] at h
  | none =>
    cases doc with
    | corrupt m =>
      simp [upload_pdf, afterExtGate, processStaged, extract_text,
        mapExtractionErr, hext, hgt, hz] at h
      exact append_ne_of_short "Invalid or corrupted PDF file: " m
        "Only PDF files are allowed" (by decide) h
    | openFail m =>
      simp [upload_pdf, afterExtGate, processStaged, extract_text,
        mapExtractionErr, hext, hgt, hz] at h
    | ok pages =>
      by_cases hemp : (collectPages 1 pages).isEmpty
      case pos =>
        simp [upload_pdf, afterExtGate, processStaged, extract_text,
          mapExtractionErr, hext, hgt, hz, hemp] at h
      cases runner with
      | error m =>
        simp [upload_pdf, afterExtGate, processStaged, extract_text,
          get_page_count, get_pdf_summary, hext, hgt, hz, hemp] at h
      | ok events =>
        by_cases hne : pyStrip (responseText events) = ""
        case pos =>
          simp [upload_pdf, afterExtGate, processStaged, extract_text,
            get_page_count, get_pdf_summary, hext, hgt, hz, hemp, hne] at h
        case neg =>
          simp [upload_pdf, afterExtGate, processStaged, extract_text,
            get_page_count, get_pdf_summary, hext, hgt, hz, hemp, hne] at h

/-- Claim C10 witness: `Report.PDF` passes the gate, `report.docx` does not. -/
theorem extension_gate_case_insensitive_witness :
    pyEndswith (pyLower "Report.PDF") ".pdf" = true ∧
    (upload_pdf ⟨10⟩ "Report.PDF" [1] "/tmp/r.pdf" (.ok ["x"])
      (.ok [⟨some [⟨some "s"⟩]⟩]) none false []).1 ≠
      .httpError 400 "Only PDF files are allowed" ∧
    pyEndswith (pyLower "report.docx") ".pdf" = false ∧
    upload_pdf ⟨10⟩ "report.docx" [1] "/tmp/r.pdf" (.ok ["x"]) (.ok []) none
      false [] = (.httpError 400 "Only PDF files are allowed", []) :=
  ⟨by decide,
    (extension_gate_case_insensitive ⟨10⟩ "Report.PDF" [1] "/tmp/r.pdf"
      (.ok ["x"]) (.ok [⟨some [⟨some "s"⟩]⟩]) none false []).2 (by decide),
    by decide,
    (extension_gate_case_insensitive ⟨10⟩ "report.docx" [1] "/tmp/r.pdf"
      (.ok ["x"]) (.ok []) none false []).1 (by decide)⟩

end PdfSummarizer
